import Mathlib

/-!
Verification of the pirkle CLI tool (src/main.rs) against its
natural-language specification.

The development shallowly embeds the parts of the program the claims
are about:

* `classifyLoop` / `process_file_arguments` embed the source function
  `process_file_arguments` (src/main.rs lines 146-192).  The process
  standard-input stream is modelled explicitly as a list of characters
  that is threaded through the functions; the `read_exact` probe on the
  locked stdin handle advances the shared buffered reader, so in the
  model it removes the probed byte from the stream that later reads
  observe.
* `polars_to_sqlite_type` embeds the source function of the same name
  (lines 195-215); the polars `DataType` enumeration is embedded as
  `PolarsType`, with one constructor per arm named in the source match
  and `other` standing for every remaining polars type (the wildcard
  arm).
* `load_csv_from_memory` / `load_stdin_tables` embed the stdin branch
  of `load_all_data` (lines 523-575) and
  `load_csv_from_memory_with_polars` (lines 632-683).  The external
  polars CSV reader is a parameter `parse`: it is a deterministic
  function from the raw bytes to an inferred data frame (schema and
  row count), `none` meaning a parse failure.  The sqlite connection is
  modelled by the list of tables created on it.
* `mainAfterLoad` / `mainTail` embed the part of `main` that follows
  data loading (lines 64-142): schema action, query-source resolution,
  the empty-query branch, saving the database, the default schema
  action and the final no-action exit.  External actions (the query
  run, schema printing, the database save) are assumed to succeed; the
  model records the exit code, the lines written to the error stream
  and the ordered list of actions performed.
* `run_query_csv`, `jsonlRender`, `logfmtRender`, `print_table` and
  `renderOutput` embed the output section of `run_query`
  (lines 352-417) and `print_table` (lines 439-475).  Rust computes
  column widths from `str::len` (bytes) but pads with `{:width$}`
  (counted in characters); the model keeps both measures, `byteLen`
  for the former and `String.length` for the latter.
* `rustParseI64` and `rustParseF64` model the Rust standard library
  integer and float parsers used by the jsonl re-parsing heuristic:
  `rustParseI64` follows `i64::from_str` (optional sign, decimal
  digits, range check), `rustParseF64` follows the `f64::from_str`
  grammar and only classifies the result, returning `some true` for a
  finite double (one that `serde_json::Number::from_f64` accepts) and
  `some false` for a NaN or infinite result.  Finiteness of a decimal
  literal is decided by comparing its exact value with the rounding
  boundary `2^1024 - 2^970` of the largest finite double.
-/

namespace Pirkle

/-! ## Source classifier: `process_file_arguments` (src/main.rs 146-192) -/

/-- Model of `file_str.strip_prefix("stdin:")`: if the token starts with
the six characters `stdin:`, return the remainder, else `none`. -/
def stripStdinColon (s : String) : Option String :=
  if s.data.take 6 = "stdin:".data then some (String.mk (s.data.drop 6)) else none

/-- The classification loop of `process_file_arguments` (lines 152-172).
`ex t` models `file_arg.exists()`.  Returns the regular files and the
stdin tables `(table_name, source_tag)` in argument order, or the error
for the leftmost offending token. -/
def classifyLoop (ex : String → Bool) : List String → Except String (List String × List (String × String))
  | [] => .ok ([], [])
  | t :: rest =>
    if t = "stdin" then
      match classifyLoop ex rest with
      | .error e => .error e
      | .ok (fs, ss) => .ok (fs, ("stdin", "stdin") :: ss)
    else
      match stripStdinColon t with
      | some customName =>
        if customName = "" then
          .error "Invalid stdin table specification: empty name after 'stdin:'"
        else
          match classifyLoop ex rest with
          | .error e => .error e
          | .ok (fs, ss) => .ok (fs, (customName, "stdin") :: ss)
      | none =>
        if ex t then
          match classifyLoop ex rest with
          | .error e => .error e
          | .ok (fs, ss) => .ok (t :: fs, ss)
        else .error ("File not found: " ++ t)

/-- The function `process_file_arguments` (lines 146-192).  `stdinStream` is the byte
stream of the process standard input; the result pairs the
classification with the stream as later reads will see it.  When no
tokens were classified and stdin is not a terminal, the source probes
for data with `handle.read_exact(&mut peek_buf)` on the locked stdin
handle; a successful `read_exact` advances the shared buffered reader,
so the model removes that byte from the stream handed onward. -/
def process_file_arguments (ex : String → Bool) (isTty : Bool) (tokens : List String)
    (stdinStream : List Char) :
    Except String ((List String × List (String × String)) × List Char) :=
  match classifyLoop ex tokens with
  | .error e => .error e
  | .ok (fs, ss) =>
    if ss.isEmpty && fs.isEmpty && !isTty then
      match stdinStream with
      | [] => .ok ((fs, ss), [])
      | _ :: rest => .ok ((fs, [("stdin", "stdin")]), rest)
    else .ok ((fs, ss), stdinStream)

/-! ## Type mapper: `polars_to_sqlite_type` (src/main.rs 195-215) -/

/-- The polars `DataType` constructors named in the source match, plus
`other` for every polars type reaching the wildcard arm. -/
inductive PolarsType where
  | int8 | int16 | int32 | int64 | uint8 | uint16 | uint32 | uint64
  | float32 | float64 | decimal | date | datetime | time
  | boolean | string | list | binary | other
deriving DecidableEq

/-- The function `polars_to_sqlite_type` (lines 195-215), arm for arm. -/
def polars_to_sqlite_type : PolarsType → String
  | .int8 | .int16 | .int32 | .int64
  | .uint8 | .uint16 | .uint32 | .uint64 => "INTEGER"
  | .float32 | .float64 => "REAL"
  | .decimal => "REAL"
  | .date | .datetime => "TEXT"
  | .time => "TEXT"
  | .boolean => "INTEGER"
  | .string => "TEXT"
  | .list => "TEXT"
  | .binary => "BLOB"
  | .other => "TEXT"

/-! ## Federation loader, stdin branch (src/main.rs 523-575, 632-683) -/

/-- The outcome of the polars CSV reader on a byte buffer: an inferred
schema (column names with polars types, in column order) and the number
of data rows. -/
structure DfModel where
  schema : List (String × PolarsType)
  height : Nat
deriving DecidableEq

/-- A table created on the sqlite connection: its name, its columns with
their sqlite storage classes, and its row count. -/
structure SqlTable where
  name : String
  schema : List (String × String)
  height : Nat
deriving DecidableEq

/-- The column list of the `CREATE TABLE` statement built in
`load_csv_from_memory_with_polars` (lines 644-654): each inferred column
with its mapped sqlite type. -/
def dfSchemaSql (df : DfModel) : List (String × String) :=
  df.schema.map fun c => (c.1, polars_to_sqlite_type c.2)

/-- The function `load_csv_from_memory_with_polars` (lines 632-683): run the polars
reader on the buffer, create the table with the mapped column types and
insert every row.  `parse` is the external polars CSV reader. -/
def load_csv_from_memory (parse : List Char → Option DfModel) (tableName : String)
    (data : List Char) : Except String SqlTable :=
  match parse data with
  | none => .error "CSV parse error"
  | some df => .ok ⟨tableName, dfSchemaSql df, df.height⟩

/-- The `for (table_name, _) in stdin_tables` loop of `load_all_data`
(lines 540-542): load each requested table from the same buffer,
stopping at the first error. -/
def loadEach (parse : List Char → Option DfModel) (data : List Char) :
    List (String × String) → Except String (List SqlTable)
  | [] => .ok []
  | t :: rest =>
    match load_csv_from_memory parse t.1 data with
    | .error e => .error e
    | .ok tab =>
      match loadEach parse data rest with
      | .error e => .error e
      | .ok tabs => .ok (tab :: tabs)

/-- Result of the stdin branch of `load_all_data`: the tables created
(or the propagated error), the warnings written to the error stream by
this branch, and how many times standard input was read to its end. -/
structure LoadResult where
  result : Except String (List SqlTable)
  warnings : List String
  stdinReads : Nat

/-- The stdin branch of `load_all_data` (lines 523-575).  `stdinRead` is
what `read_to_end` would deliver: `none` models an unreadable stream
(the read error is propagated by `?`), `some d` a successful read of
`d`.  The read is attempted only when stdin is not a terminal.  The
branch writes no warnings; the commented-out else-if at lines 543-573
only re-checks a condition that is false whenever the branch is
reached. -/
def load_stdin_tables (parse : List Char → Option DfModel)
    (stdinTables : List (String × String)) (isTty : Bool)
    (stdinRead : Option (List Char)) : LoadResult :=
  if stdinTables.isEmpty then ⟨.ok [], [], 0⟩
  else
    let readAttempt : Except String (List Char) :=
      if !isTty then
        match stdinRead with
        | none => .error "failed to read stdin"
        | some d => .ok d
      else .ok []
    let reads := if !isTty then 1 else 0
    match readAttempt with
    | .error e => ⟨.error e, [], reads⟩
    | .ok stdinData =>
      if stdinData.isEmpty && !isTty then
        ⟨.error "Stdin tables specified, but no data received from stdin", [], reads⟩
      else if !stdinData.isEmpty then
        match loadEach parse stdinData stdinTables with
        | .error e => ⟨.error e, [], reads⟩
        | .ok tabs => ⟨.ok tabs, [], reads⟩
      else
        ⟨.ok [], [], reads⟩

/-! ## The post-load part of `main` (src/main.rs 64-142) -/

/-- Error line for an empty query read from stdin (line 98). -/
def errEmptyQueryStdin : String := "Error: Received empty query from stdin."

/-- Error line for an empty query given on the command line (line 100). -/
def errEmptyQueryArg : String := "Error: Empty query provided via command line argument."

/-- Warning line for an empty stdin query with other actions pending (line 104). -/
def warnEmptyQueryStdin : String :=
  "Warning: Received empty query from stdin. Other actions (schema/output) will proceed."

/-- Warning line for an empty command-line query with other actions pending (line 106). -/
def warnEmptyQueryArg : String :=
  "Warning: Empty query provided via command line argument. Other actions (schema/output) will proceed."

/-- First error line of the final no-action branch (line 127). -/
def errNoAction : String :=
  "Error: No action performed. Specify a query, --schema, --output-db, or provide input files to see their schema by default."

/-- Second error line of the final no-action branch (line 128). -/
def errNoActionHelp : String := "Run with --help for usage information."

/-- Rust `str::trim`: the string with leading and trailing whitespace
characters removed. -/
def rustTrim (s : String) : String :=
  String.mk (((s.data.dropWhile Char.isWhitespace).reverse.dropWhile Char.isWhitespace).reverse)

/-- What the process did: its exit code, the lines written to the error
stream, and the actions performed in order (schema listing, query run,
database save). -/
structure MainRes where
  exitCode : Nat
  stderrLines : List String
  actions : List String
deriving DecidableEq

/-- Lines 111-142 of `main`: the `--output-db` save, the default schema
action when inputs were given but nothing else was done, and the final
no-action error exit.  `qfsa` is `query_from_stdin_attempted`. -/
def mainTail (outDb : Bool) (regularFiles : List String)
    (stdinTables : List (String × String)) (nargs : Nat) (qfsa : Bool)
    (stderrL actions : List String) (actionTaken : Bool) : MainRes :=
  let actions2 := if outDb then actions ++ ["save_db"] else actions
  let taken2 := actionTaken || outDb
  let actions3 :=
    if !taken2 && (!regularFiles.isEmpty || !stdinTables.isEmpty) then actions2 ++ ["schema"]
    else actions2
  let taken3 := taken2 || (!regularFiles.isEmpty || !stdinTables.isEmpty)
  if !taken3 && (decide (1 < nargs) || qfsa) then
    ⟨1, stderrL ++ [errNoAction, errNoActionHelp], actions3⟩
  else ⟨0, stderrL, actions3⟩

/-- Lines 64-142 of `main`, after data loading succeeded.  The query
source is resolved as in lines 73-86: `--query` wins over the trailing
`--` form; reading the query from stdin is attempted only when neither
was given, no stdin tables are pending and stdin is not a terminal
(`stdinText` is what that read would return, and the read itself is
assumed to succeed).  `nargs` is `std::env::args().len()`.  The
external effects of `show_schemas`, `run_query` and `save_database`
are assumed to succeed, and only which actions ran is recorded. -/
def mainAfterLoad (schemaFlag : Bool) (queryFlag queryAfterDelim : Option String)
    (outDb : Bool) (regularFiles : List String) (stdinTables : List (String × String))
    (isTty : Bool) (stdinText : String) (nargs : Nat) : MainRes :=
  let actions1 : List String := if schemaFlag then ["schema"] else []
  let qfsa : Bool := queryFlag.isNone && queryAfterDelim.isNone && stdinTables.isEmpty && !isTty
  let queryOpt : Option String :=
    match queryFlag.or queryAfterDelim with
    | some q => some q
    | none =>
      if stdinTables.isEmpty && !isTty && !(rustTrim stdinText == "") then some stdinText
      else none
  match queryOpt with
  | some q =>
    if !(rustTrim q == "") then
      mainTail outDb regularFiles stdinTables nargs qfsa [] (actions1 ++ ["query"]) true
    else if !outDb && !schemaFlag then
      ⟨1, [if qfsa then errEmptyQueryStdin else errEmptyQueryArg], actions1⟩
    else
      mainTail outDb regularFiles stdinTables nargs qfsa
        [if qfsa then warnEmptyQueryStdin else warnEmptyQueryArg] actions1 schemaFlag
  | none => mainTail outDb regularFiles stdinTables nargs qfsa [] actions1 schemaFlag

/-! ## Result encoder: the output section of `run_query` (352-417) and
`print_table` (439-475) -/

/-- The expression `v.clone().unwrap_or_else(|| "NULL".into())`: a Null cell renders as
the literal text `NULL`. -/
def renderCell (v : Option String) : String := v.getD "NULL"

/-- Size in bytes of one character in UTF-8. -/
def charBytes (c : Char) : Nat :=
  if c.toNat < 0x80 then 1
  else if c.toNat < 0x800 then 2
  else if c.toNat < 0x10000 then 3
  else 4

/-- Rust `str::len`: the length of a string in UTF-8 bytes. -/
def byteLen (s : String) : Nat := (s.data.map charBytes).sum

/-- Rust `print!("{:width$}", cell)` on a string: left-aligned, padded on the
right with spaces up to `w` characters (Rust format padding counts
characters). -/
def padTo (s : String) (w : Nat) : String :=
  s ++ String.mk (List.replicate (w - s.length) ' ')

/-- Right-aligned padding (spaces added on the left), used to state what
the claim literally asks for. -/
def padLeftTo (s : String) (w : Nat) : String :=
  String.mk (List.replicate (w - s.length) ' ') ++ s

/-- One table cell as printed: the cell padded to the column width, then
the two-space column gap (line 464). -/
def cellChunk (s : String) (w : Nat) : String := padTo s w ++ "  "

/-- One printed table line: every cell of the row rendered with its
column width. -/
def rowLine (widths : List Nat) (row : List String) : String :=
  String.join ((row.zip widths).map fun p => cellChunk p.1 p.2)

/-- The dashed separator line (lines 468-472): per column, `width`
dashes followed by two more dashes in place of the column gap. -/
def sepLine (widths : List Nat) : String :=
  String.join (widths.map fun w => String.mk (List.replicate w '-') ++ "--")

/-- Column widths (lines 457-459): for each of the `ncols` columns, the
maximum byte length of that column entry over all rows of `table`
(header row included). -/
def colWidths (table : List (List String)) (ncols : Nat) : List Nat :=
  (List.range ncols).map fun col => (table.map fun row => byteLen (row.getD col "")).foldr max 0

/-- The printing loop of `print_table` (lines 462-474): emit each row,
inserting the separator right after the row with index 0. -/
def emitRows (widths : List Nat) : Nat → List (List String) → List String
  | _, [] => []
  | i, r :: rest =>
    if i = 0 then rowLine widths r :: sepLine widths :: emitRows widths (i + 1) rest
    else rowLine widths r :: emitRows widths (i + 1) rest

/-- The function `print_table` (lines 439-475), as the list of printed lines. -/
def print_table (headers : List String) (rows : List (List (Option String))) : List String :=
  if rows.isEmpty then ["No results."]
  else
    let table := headers :: rows.map fun r => r.map renderCell
    emitRows (colWidths table headers.length) 0 table

/-- Modelled from the spec (claim C7 wording): the width of one column
is the maximum rendered width — counted in characters — over its header
and all of its cells. -/
def specColWidth (headers : List String) (rows : List (List (Option String))) (col : Nat) : Nat :=
  max (headers.getD col "").length
    ((rows.map fun r => (renderCell (r.getD col none)).length).foldr max 0)

/-- Modelled from the spec (claim C7 under the rendered-width-in-
characters reading): table output is the header row, a dashed separator
row, then the data rows, each cell left-aligned and padded on the right
to its character-counted column width with a two-space gap; an empty
result set is the single line `No results.`.  The program violates this
reading on multi-byte text, because it computes widths in bytes. -/
def specTableAligned (headers : List String) (rows : List (List (Option String))) : List String :=
  if rows = [] then ["No results."]
  else
    let widths := (List.range headers.length).map (specColWidth headers rows)
    rowLine widths headers :: sepLine widths :: rows.map fun r => rowLine widths (r.map renderCell)

/-- Modelled from the spec (claim C7, amended): the width of one column
is the maximum UTF-8 byte length over its header and all of its
rendered cells. -/
def specByteColWidth (headers : List String) (rows : List (List (Option String))) (col : Nat) : Nat :=
  max (byteLen (headers.getD col ""))
    ((rows.map fun r => byteLen (renderCell (r.getD col none))).foldr max 0)

/-- Modelled from the spec (claim C7, amended): table output is the
header row, a dashed separator row, then the data rows; each column
width is the maximum UTF-8 byte length over the header and the rendered
cells of that column, and each cell is left-aligned — padded on the
right with spaces, counted in characters, up to that byte-computed
width — followed by the two-space column gap; an empty result set is
the single line `No results.`. -/
def specTableByteWidths (headers : List String) (rows : List (List (Option String))) : List String :=
  if rows = [] then ["No results."]
  else
    let widths := (List.range headers.length).map (specByteColWidth headers rows)
    rowLine widths headers :: sepLine widths :: rows.map fun r => rowLine widths (r.map renderCell)

/-- One cell as the claim literally states it: left-padded (spaces on
the left) to the column width, then the two-space gap. -/
def cellChunkLP (s : String) (w : Nat) : String := padLeftTo s w ++ "  "

/-- A table line under the literal left-padded reading of claim C7. -/
def rowLineLP (widths : List Nat) (row : List String) : String :=
  String.join ((row.zip widths).map fun p => cellChunkLP p.1 p.2)

/-- Modelled from the spec (claim C7 as stated): like
`specTableAligned`, but every cell is left-padded (right-aligned). -/
def specTableLeftPadded (headers : List String) (rows : List (List (Option String))) : List String :=
  if rows = [] then ["No results."]
  else
    let widths := (List.range headers.length).map (specColWidth headers rows)
    rowLineLP widths headers :: sepLine widths ::
      rows.map fun r => rowLineLP widths (r.map renderCell)

/-- The `csv` arm of `run_query` (lines 353-364): the comma-joined
header line, then one comma-joined line per row with Null as `NULL`. -/
def run_query_csv (cols : List String) (rows : List (List (Option String))) : List String :=
  String.intercalate "," cols ::
    rows.map fun r => String.intercalate "," (r.map renderCell)

/-! ## The jsonl cell re-parsing heuristic (src/main.rs 365-403) -/

/-- The JSON values the jsonl arm can emit.  A finite double is carried
by its source text (`float`), since no claim depends on the rounded
numeric value, only on which JSON kind is emitted. -/
inductive JVal where
  | null
  | bool (b : Bool)
  | num (n : Int)
  | float (src : String)
  | str (s : String)
deriving DecidableEq

/-- Numeric value of a decimal digit character. -/
def digitVal (c : Char) : Nat := c.toNat - 48

/-- Value of a digit list read in base 10. -/
def digitsVal (l : List Char) : Nat := l.foldl (fun acc c => acc * 10 + digitVal c) 0

/-- Whether every character of the list is a decimal digit. -/
def allDigits (l : List Char) : Bool := l.all fun c => c.isDigit

/-- Rust `i64::from_str`, as used by `val_str.parse::<i64>()` (line 376):
an optional single sign, then one or more decimal digits, with the
result required to fit in a signed 64-bit integer. -/
def rustParseI64 (s : String) : Option Int :=
  let core : List Char → Bool → Option Int := fun l neg =>
    if l.isEmpty then none
    else if allDigits l then
      let n := digitsVal l
      if neg then if n ≤ 2 ^ 63 then some (-(n : Int)) else none
      else if n ≤ 2 ^ 63 - 1 then some (n : Int) else none
    else none
  match s.data with
  | '+' :: rest => core rest false
  | '-' :: rest => core rest true
  | l => core l false

/-- Split a character list into its leading run of decimal digits and
the remainder. -/
def splitDigits (l : List Char) : List Char × List Char :=
  (l.takeWhile Char.isDigit, l.dropWhile Char.isDigit)

/-- The exponent part of a float literal, after the `e` or `E`: an
optional sign and one or more digits. -/
def parseExpPart (l : List Char) : Option Int :=
  let digits : List Char → Bool → Option Int := fun d neg =>
    if d.isEmpty then none
    else if allDigits d then some (if neg then -(digitsVal d : Int) else (digitsVal d : Int))
    else none
  match l with
  | '+' :: rest => digits rest false
  | '-' :: rest => digits rest true
  | rest => digits rest false

/-- The numeric part of the `f64::from_str` grammar, sign already
stripped: integer digits, an optional point with optional fractional
digits (at least one digit overall), and an optional exponent.  Returns
the digits read as an integer together with the decimal exponent, so
the represented magnitude is `mant * 10 ^ dexp`. -/
def parseF64Num (l : List Char) : Option (Nat × Int) :=
  let (ip, rest1) := splitDigits l
  match rest1 with
  | '.' :: rest2 =>
    let (fp, rest3) := splitDigits rest2
    if ip.isEmpty && fp.isEmpty then none
    else
      match rest3 with
      | [] => some (digitsVal (ip ++ fp), -(fp.length : Int))
      | 'e' :: restE => (parseExpPart restE).map fun e => (digitsVal (ip ++ fp), e - fp.length)
      | 'E' :: restE => (parseExpPart restE).map fun e => (digitsVal (ip ++ fp), e - fp.length)
      | _ => none
  | [] => if ip.isEmpty then none else some (digitsVal ip, 0)
  | 'e' :: restE =>
    if ip.isEmpty then none else (parseExpPart restE).map fun e => (digitsVal ip, e)
  | 'E' :: restE =>
    if ip.isEmpty then none else (parseExpPart restE).map fun e => (digitsVal ip, e)
  | _ => none

/-- The magnitude at and above which a decimal literal rounds to an
infinite double: the midpoint between the largest finite double and
`2^1024` is `2^1024 - 2^970`, and ties round to the even candidate
`2^1024`. -/
def f64Cutoff : Nat := 2 ^ 1024 - 2 ^ 970

/-- Whether `mant * 10 ^ dexp` rounds to a finite double. -/
def f64IsFinite (mant : Nat) (dexp : Int) : Bool :=
  if mant = 0 then true
  else if 0 ≤ dexp then mant * 10 ^ dexp.toNat < f64Cutoff
  else mant < f64Cutoff * 10 ^ (-dexp).toNat

/-- Rust `f64::from_str` as used by `val_str.parse::<f64>()` (line 378),
classified: `none` when the string is not a float literal, `some true`
when it denotes a finite double (so `serde_json::Number::from_f64`
yields a number), `some false` when it denotes NaN or an infinity (so
`from_f64` yields `None`).  The grammar is an optional sign followed by
`inf`, `infinity` or `nan` (case-insensitive) or a decimal literal. -/
def rustParseF64 (s : String) : Option Bool :=
  let body : List Char → Option Bool := fun l =>
    let lw := l.map Char.toLower
    if lw = "inf".data || lw = "infinity".data || lw = "nan".data then some false
    else (parseF64Num l).map fun p => f64IsFinite p.1 p.2
  match s.data with
  | '+' :: rest => body rest
  | '-' :: rest => body rest
  | l => body l

/-- The per-cell conversion of the jsonl arm (lines 373-395): a Null
cell is JSON null; otherwise the textual form is re-parsed as an i64,
then as an f64 (a non-finite double falls back to the string, as
`serde_json::Number::from_f64` rejects it), then compared with the
literals `true`, `false` and `null`, and finally kept as a string. -/
def cellToJson : Option String → JVal
  | none => .null
  | some s =>
    match rustParseI64 s with
    | some n => .num n
    | none =>
      match rustParseF64 s with
      | some true => .float s
      | some false => .str s
      | none =>
        if s = "true" then .bool true
        else if s = "false" then .bool false
        else if s = "null" then .null
        else .str s

/-- The `jsonl` arm of `run_query` (lines 365-403): one object per row,
keys zipped with the cells in column order, each cell converted by the
re-parsing heuristic.  The object is kept as the association list in
zip order. -/
def jsonlRender (cols : List String) (rows : List (List (Option String))) :
    List (List (String × JVal)) :=
  rows.map fun r => (cols.zip r).map fun p => (p.1, cellToJson p.2)

/-- The expression `val.replace` applied to a double quote: backslash-escape every double quote. -/
def escapeQuotes (s : String) : String :=
  String.mk (s.data.foldr (fun c acc => if c = '"' then '\\' :: '"' :: acc else c :: acc) [])

/-- The call `line.trim_end()`: drop trailing whitespace characters. -/
def trimEndStr (s : String) : String :=
  String.mk (s.data.reverse.dropWhile Char.isWhitespace).reverse

/-- The `logfmt` arm of `run_query` (lines 404-413): per row, the
space-joined `key="value"` pairs with quotes escaped and the trailing
whitespace trimmed. -/
def logfmtRender (cols : List String) (rows : List (List (Option String))) : List String :=
  rows.map fun r =>
    trimEndStr (String.join ((cols.zip r).map fun p =>
      p.1 ++ "=\"" ++ escapeQuotes (renderCell p.2) ++ "\" "))

/-- The rendered output of `run_query`, one constructor per format
arm. -/
inductive Output where
  | csv (lines : List String)
  | jsonl (objs : List (List (String × JVal)))
  | logfmt (lines : List String)
  | table (lines : List String)
deriving DecidableEq

/-- The `match format` dispatch of `run_query` (lines 352-417): the
three named formats select their encoders, and the `"table" | _` arm
catches `table` together with every other string. -/
def renderOutput (format : String) (cols : List String)
    (rows : List (List (Option String))) : Output :=
  if format = "csv" then .csv (run_query_csv cols rows)
  else if format = "jsonl" then .jsonl (jsonlRender cols rows)
  else if format = "logfmt" then .logfmt (logfmtRender cols rows)
  else .table (print_table cols rows)

/-! ## Helper lemmas -/

theorem take_len_app {α : Type} (l m : List α) : (l ++ m).take l.length = l := by
  induction l with
  | nil => simp
  | cons a t ih => simp [ih]

theorem drop_len_app {α : Type} (l m : List α) : (l ++ m).drop l.length = m := by
  induction l with
  | nil => simp
  | cons a t ih => simp [ih]

theorem string_data_app (s t : String) : (s ++ t).data = s.data ++ t.data := rfl

theorem stripStdinColon_concat (name : String) :
    stripStdinColon ("stdin:" ++ name) = some name := by
  unfold stripStdinColon
  rw [string_data_app]
  have h6 : (6 : Nat) = "stdin:".data.length := rfl
  rw [h6, take_len_app, drop_len_app]
  simp

theorem stdinColon_ne_stdin (name : String) : ("stdin:" ++ name) ≠ "stdin" := by
  intro h
  have h2 := congrArg String.data h
  rw [string_data_app] at h2
  have h3 := congrArg List.length h2
  rw [List.length_append] at h3
  have e1 : "stdin:".data.length = 6 := rfl
  have e2 : "stdin".data.length = 5 := rfl
  omega

/-! ## Claim theorems -/

/-- Claim C1 (code bug): with no tokens, stdin not a terminal and piped
data `a,b\n1,2\n` available, the classifier does add exactly one default
stdin table named `stdin` — but the probe is destructive: the stream
handed on to the data-loading phase is `,b\n1,2\n`, missing the probed
first byte, contrary to the non-destructive probe the specification
requires (and to the source comment at line 188 claiming the consumed
byte stays buffered for later reads). -/
theorem claim_C1_probe :
    process_file_arguments (fun _ => false) false [] ("a,b\n1,2\n".data) =
      .ok (([], [("stdin", "stdin")]), ",b\n1,2\n".data) ∧
    ",b\n1,2\n".data ≠ "a,b\n1,2\n".data :=
  ⟨rfl, by decide⟩

/-- Claim C4: a token `stdin:<name>` with non-empty `<name>` is
classified as a standard-input table named `<name>` (prepended to the
classification of the remaining tokens); the token `stdin:` with empty
name makes the whole classification fail with the invalid-argument
error; the bare token `stdin` is classified as a standard-input table
named `stdin`. -/
theorem claim_C4 (ex : String → Bool) (name : String) (rest : List String) :
    (name ≠ "" →
      classifyLoop ex (("stdin:" ++ name) :: rest) =
        (classifyLoop ex rest).map fun p => (p.1, (name, "stdin") :: p.2)) ∧
    classifyLoop ex ("stdin:" :: rest) =
      .error "Invalid stdin table specification: empty name after 'stdin:'" ∧
    classifyLoop ex ("stdin" :: rest) =
      (classifyLoop ex rest).map fun p => (p.1, ("stdin", "stdin") :: p.2) := by
  refine ⟨fun hname => ?_, ?_, ?_⟩
  · cases h : classifyLoop ex rest with
    | error e =>
      simp [classifyLoop, stdinColon_ne_stdin name, stripStdinColon_concat, hname, h,
        Except.map]
    | ok p =>
      cases p with
      | mk fs ss =>
        simp [classifyLoop, stdinColon_ne_stdin name, stripStdinColon_concat, hname, h,
          Except.map]
  · simp [classifyLoop, stripStdinColon]
  · cases h : classifyLoop ex rest with
    | error e => simp [classifyLoop, h, Except.map]
    | ok p =>
      cases p with
      | mk fs ss => simp [classifyLoop, h, Except.map]

/-- Claim C4 witness: concrete classifications of `stdin`, `stdin:a`
and the rejection of `stdin:`. -/
theorem claim_C4_witness :
    classifyLoop (fun _ => false) ["stdin:a"] = .ok ([], [("a", "stdin")]) ∧
    classifyLoop (fun _ => false) ["stdin:"] =
      .error "Invalid stdin table specification: empty name after 'stdin:'" ∧
    classifyLoop (fun _ => false) ["stdin"] = .ok ([], [("stdin", "stdin")]) := by
  have h := claim_C4 (fun _ => false) "a" []
  exact ⟨h.1 (by decide), (claim_C4 (fun _ => false) "a" []).2.1,
    (claim_C4 (fun _ => false) "a" []).2.2⟩

/-- Claim C5: the type mapper is total over the embedded type
enumeration with no error path; the integer-like types map to INTEGER,
types not covered by a sqlite storage class map to TEXT, every result
is one of the four storage classes, and the named float, decimal,
string, boolean and binary cases map to REAL, REAL, TEXT, INTEGER and
BLOB respectively. -/
theorem claim_C5 :
    (∀ d : PolarsType,
      d ∈ ([.int8, .int16, .int32, .int64, .uint8, .uint16, .uint32, .uint64] :
          List PolarsType) →
      polars_to_sqlite_type d = "INTEGER") ∧
    (∀ d : PolarsType,
      d ∉ ([.int8, .int16, .int32, .int64, .uint8, .uint16, .uint32, .uint64,
            .float32, .float64, .decimal, .boolean, .binary] : List PolarsType) →
      polars_to_sqlite_type d = "TEXT") ∧
    (∀ d : PolarsType,
      polars_to_sqlite_type d = "INTEGER" ∨ polars_to_sqlite_type d = "REAL" ∨
      polars_to_sqlite_type d = "TEXT" ∨ polars_to_sqlite_type d = "BLOB") ∧
    polars_to_sqlite_type .float32 = "REAL" ∧
    polars_to_sqlite_type .float64 = "REAL" ∧
    polars_to_sqlite_type .decimal = "REAL" ∧
    polars_to_sqlite_type .string = "TEXT" ∧
    polars_to_sqlite_type .boolean = "INTEGER" ∧
    polars_to_sqlite_type .binary = "BLOB" := by
  refine ⟨?_, ?_, ?_, rfl, rfl, rfl, rfl, rfl, rfl⟩
  · intro d; cases d <;> decide
  · intro d; cases d <;> decide
  · intro d; cases d <;> decide

/-- Claim C5 witness: the mapper evaluated at an integer-like type and
at a type outside the storage classes. -/
theorem claim_C5_witness :
    polars_to_sqlite_type .int8 = "INTEGER" ∧ polars_to_sqlite_type .date = "TEXT" :=
  ⟨claim_C5.1 .int8 (by decide), claim_C5.2.1 .date (by decide)⟩

/-- Claim C9: encoding a ResultSet in csv mode is a pure function of the
ResultSet, so two encodings are byte-identical; the output is the
comma-joined header line followed by one comma-joined line per row with
Null rendered as `NULL`. -/
theorem claim_C9 (cols : List String) (rows : List (List (Option String))) :
    run_query_csv cols rows = run_query_csv cols rows ∧
    run_query_csv cols rows =
      String.intercalate "," cols ::
        rows.map (fun r => String.intercalate "," (r.map fun v => v.getD "NULL")) ∧
    (run_query_csv cols rows).length = rows.length + 1 := by
  refine ⟨rfl, rfl, ?_⟩
  simp [run_query_csv]

/-- Claim C10: any format string other than `csv`, `jsonl` and `logfmt`
falls through to the table arm of the dispatch, so an unrecognized
format renders exactly as `table` does. -/
theorem claim_C10 (format : String) (cols : List String)
    (rows : List (List (Option String)))
    (h1 : format ≠ "csv") (h2 : format ≠ "jsonl") (h3 : format ≠ "logfmt") :
    renderOutput format cols rows = renderOutput "table" cols rows := by
  simp [renderOutput, h1, h2, h3]

/-- Claim C10 witness: the unrecognized format `xml` renders as
`table`. -/
theorem claim_C10_witness :
    renderOutput "xml" ["c"] [[some "v"]] = renderOutput "table" ["c"] [[some "v"]] :=
  claim_C10 "xml" ["c"] [[some "v"]] (by decide) (by decide) (by decide)

theorem loadEach_ok (parse : List Char → Option DfModel) (data : List Char) (df : DfModel)
    (hp : parse data = some df) (ts : List (String × String)) :
    loadEach parse data ts = .ok (ts.map fun t => ⟨t.1, dfSchemaSql df, df.height⟩) := by
  induction ts with
  | nil => rfl
  | cons t rest ih => simp [loadEach, load_csv_from_memory, hp, ih]

/-- Claim C2: with stdin tables requested, stdin piped and non-empty,
the loader reads standard input exactly once and creates one table per
requested name from that single buffer, every created table carrying
the same inferred schema and the same row count. -/
theorem claim_C2 (parse : List Char → Option DfModel) (ts : List (String × String))
    (data : List Char) (df : DfModel)
    (hne : ts ≠ []) (hd : data ≠ []) (hp : parse data = some df) :
    load_stdin_tables parse ts false (some data) =
      ⟨.ok (ts.map fun t => ⟨t.1, dfSchemaSql df, df.height⟩), [], 1⟩ ∧
    (∀ u v : SqlTable,
      u ∈ ts.map (fun t => SqlTable.mk t.1 (dfSchemaSql df) df.height) →
      v ∈ ts.map (fun t => SqlTable.mk t.1 (dfSchemaSql df) df.height) →
      u.schema = v.schema ∧ u.height = v.height) := by
  have h1 : ts.isEmpty = false := by cases ts with
    | nil => exact absurd rfl hne
    | cons a b => rfl
  have h2 : data.isEmpty = false := by cases data with
    | nil => exact absurd rfl hd
    | cons a b => rfl
  constructor
  · simp [load_stdin_tables, h1, h2, loadEach_ok parse data df hp]
  · intro u v hu hv
    rw [List.mem_map] at hu hv
    obtain ⟨a, -, rfl⟩ := hu
    obtain ⟨b, -, rfl⟩ := hv
    exact ⟨rfl, rfl⟩

/-- Claim C2 witness: two stdin table names loaded from one concrete
buffer yield two tables with the same schema and row count. -/
theorem claim_C2_witness :
    load_stdin_tables (fun _ => some ⟨[("c", PolarsType.int64)], 2⟩)
        [("a", "stdin"), ("b", "stdin")] false (some ['x']) =
      ⟨.ok [⟨"a", [("c", "INTEGER")], 2⟩, ⟨"b", [("c", "INTEGER")], 2⟩], [], 1⟩ :=
  (claim_C2 (fun _ => some ⟨[("c", PolarsType.int64)], 2⟩) [("a", "stdin"), ("b", "stdin")]
    ['x'] ⟨[("c", PolarsType.int64)], 2⟩ (by decide) (by decide) rfl).1

/-- Claim C3 counterexample: stdin tables requested while stdin is an
interactive terminal — loading returns success with no tables and, in
particular, writes no warning at all, where the claim promises a soft
warning. -/
theorem claim_C3_counterexample :
    (load_stdin_tables (fun _ => none) [("stdin", "stdin")] true (some [])).result = .ok [] ∧
    (load_stdin_tables (fun _ => none) [("stdin", "stdin")] true (some [])).warnings = [] :=
  ⟨rfl, rfl⟩

/-- Claim C3 (amended): with stdin tables requested and stdin not a
terminal, an empty buffer fails with the missing-stdin-data error and an
unreadable stream fails with the propagated read error; when stdin is an
interactive terminal the pending request is silently skipped — loading
succeeds with no tables, no warning and no stdin read. -/
theorem claim_C3_amended (parse : List Char → Option DfModel) (ts : List (String × String))
    (stdinRead : Option (List Char)) (hne : ts ≠ []) :
    (load_stdin_tables parse ts false (some [])).result =
      .error "Stdin tables specified, but no data received from stdin" ∧
    (load_stdin_tables parse ts false none).result = .error "failed to read stdin" ∧
    load_stdin_tables parse ts true stdinRead = ⟨.ok [], [], 0⟩ := by
  have h1 : ts.isEmpty = false := by cases ts with
    | nil => exact absurd rfl hne
    | cons a b => rfl
  refine ⟨?_, ?_, ?_⟩ <;> simp [load_stdin_tables, h1]

/-- Claim C3 witness: the amended behaviour at a concrete request. -/
theorem claim_C3_witness :
    (load_stdin_tables (fun _ => none) [("stdin", "stdin")] false (some [])).result =
      .error "Stdin tables specified, but no data received from stdin" ∧
    load_stdin_tables (fun _ => none) [("stdin", "stdin")] true none = ⟨.ok [], [], 0⟩ :=
  ⟨(claim_C3_amended (fun _ => none) [("stdin", "stdin")] none (by decide)).1,
   (claim_C3_amended (fun _ => none) [("stdin", "stdin")] none (by decide)).2.2⟩

/-- Claim C6: in jsonl mode a Null cell emits JSON null, and a non-null
cell text is re-parsed as an integer first, then as a float, then as
the literals `true`, `false` and `null`, falling back to a JSON string
when none of these apply. -/
theorem claim_C6 (s : String) :
    cellToJson none = JVal.null ∧
    (∀ n : Int, rustParseI64 s = some n → cellToJson (some s) = .num n) ∧
    (rustParseI64 s = none → rustParseF64 s = some true →
      cellToJson (some s) = .float s) ∧
    (rustParseI64 s = none → rustParseF64 s = none →
      (s = "true" → cellToJson (some s) = .bool true) ∧
      (s = "false" → cellToJson (some s) = .bool false) ∧
      (s = "null" → cellToJson (some s) = .null) ∧
      (s ≠ "true" → s ≠ "false" → s ≠ "null" → cellToJson (some s) = .str s)) := by
  refine ⟨rfl, ?_, ?_, ?_⟩
  · intro n h; simp [cellToJson, h]
  · intro h1 h2; simp [cellToJson, h1, h2]
  · intro h1 h2
    refine ⟨?_, ?_, ?_, ?_⟩
    · intro hs; subst hs; simp [cellToJson, h1, h2]
    · intro hs; subst hs; simp [cellToJson, h1, h2]
    · intro hs; subst hs; simp [cellToJson, h1, h2]
    · intro a b c; simp [cellToJson, h1, h2, a, b, c]

set_option maxRecDepth 8192 in
/-- Claim C6 witness: the re-parsing precedence at concrete cells. -/
theorem claim_C6_witness :
    cellToJson (some "42") = .num 42 ∧
    cellToJson (some "3.5") = .float "3.5" ∧
    cellToJson (some "true") = .bool true ∧
    cellToJson (some "null") = .null ∧
    cellToJson (some "abc") = .str "abc" :=
  ⟨(claim_C6 "42").2.1 42 (by decide),
   (claim_C6 "3.5").2.2.1 (by decide) (by decide),
   ((claim_C6 "true").2.2.2 (by decide) (by decide)).1 rfl,
   ((claim_C6 "null").2.2.2 (by decide) (by decide)).2.2.1 rfl,
   ((claim_C6 "abc").2.2.2 (by decide) (by decide)).2.2.2 (by decide) (by decide) (by decide)⟩

/-- Claim C8: a query string that trims to empty, supplied through
either command-line channel with neither `--schema` nor `--output-db`,
makes the process exit with code 1 after writing the empty-query error
line; with `--schema` or `--output-db` also requested it degrades to a
warning on the error stream and the other action still runs. -/
theorem claim_C8 (q stdinText : String) (schemaFlag outDb isTty : Bool)
    (regularFiles : List String) (stdinTables : List (String × String)) (nargs : Nat)
    (hq : rustTrim q = "") :
    mainAfterLoad false (some q) none false regularFiles stdinTables isTty stdinText nargs =
      ⟨1, [errEmptyQueryArg], []⟩ ∧
    mainAfterLoad false none (some q) false regularFiles stdinTables isTty stdinText nargs =
      ⟨1, [errEmptyQueryArg], []⟩ ∧
    (schemaFlag = true ∨ outDb = true →
      (mainAfterLoad schemaFlag (some q) none outDb regularFiles stdinTables isTty
          stdinText nargs).exitCode = 0 ∧
      warnEmptyQueryArg ∈
        (mainAfterLoad schemaFlag (some q) none outDb regularFiles stdinTables isTty
          stdinText nargs).stderrLines ∧
      (schemaFlag = true →
        "schema" ∈ (mainAfterLoad schemaFlag (some q) none outDb regularFiles stdinTables
          isTty stdinText nargs).actions) ∧
      (outDb = true →
        "save_db" ∈ (mainAfterLoad schemaFlag (some q) none outDb regularFiles stdinTables
          isTty stdinText nargs).actions)) := by
  have hq' : (rustTrim q == "") = true := by simp [hq]
  refine ⟨?_, ?_, ?_⟩
  · simp [mainAfterLoad, mainTail, Option.or, hq']
  · simp [mainAfterLoad, mainTail, Option.or, hq']
  · intro hso
    cases schemaFlag with
    | true => cases outDb <;> simp [mainAfterLoad, mainTail, Option.or, hq']
    | false =>
      cases outDb with
      | true => simp [mainAfterLoad, mainTail, Option.or, hq']
      | false => simp at hso

/-- Claim C8 witness: the exit and the degraded warning at concrete
invocations. -/
theorem claim_C8_witness :
    mainAfterLoad false (some "") none false [] [] true "" 3 = ⟨1, [errEmptyQueryArg], []⟩ ∧
    (mainAfterLoad true (some "") none false [] [] true "" 3).exitCode = 0 ∧
    warnEmptyQueryArg ∈ (mainAfterLoad true (some "") none false [] [] true "" 3).stderrLines := by
  have h1 := (claim_C8 "" "" false false true [] [] 3 (by decide)).1
  have h3 := (claim_C8 "" "" true false true [] [] 3 (by decide)).2.2 (Or.inl rfl)
  exact ⟨h1, h3.1, h3.2.1⟩

theorem emitRows_pos (widths : List Nat) (rest : List (List String)) (i : Nat) :
    emitRows widths (i + 1) rest = rest.map (rowLine widths) := by
  induction rest generalizing i with
  | nil => rfl
  | cons r t ih => simp [emitRows, ih]

theorem colWidths_eq_specBytes (headers : List String) (rows : List (List (Option String)))
    (h1 : ∀ r ∈ rows, r.length = headers.length) :
    colWidths (headers :: rows.map fun r => r.map renderCell) headers.length =
      (List.range headers.length).map (specByteColWidth headers rows) := by
  unfold colWidths
  apply List.map_congr_left
  intro col hcol
  rw [List.mem_range] at hcol
  simp only [List.map_cons, List.foldr_cons]
  unfold specByteColWidth
  congr 1
  rw [List.map_map]
  apply congrArg (List.foldr max 0)
  apply List.map_congr_left
  intro r hr
  have hlt : col < r.length := by rw [h1 r hr]; exact hcol
  have hlt2 : col < (r.map renderCell).length := by simpa using hlt
  have e1 : (r.map renderCell).getD col "" = renderCell (r.getD col none) := by
    rw [List.getD_eq_getElem _ _ hlt2, List.getElem_map, List.getD_eq_getElem _ _ hlt]
  simp only [Function.comp, e1]

/-- Claim C7 counterexample, refuting two parts of the claim as stated.
Left padding: at header `ab` and single cell `x` the program prints `x`
followed by the pad, not the pad followed by `x`.  Width as rendered
width: at header `é` and single cell `é` (one character, two UTF-8
bytes) the program computes the column width from byte lengths and
prints width-2 cells with a four-dash separator, while a rendered
(character) width of 1 would give unpadded cells and a three-dash
separator — so even the left-aligned rendered-width reading
(`specTableAligned`) fails. -/
theorem claim_C7_counterexample :
    print_table ["ab"] [[some "x"]] ≠ specTableLeftPadded ["ab"] [[some "x"]] ∧
    print_table ["ab"] [[some "x"]] = ["ab  ", "----", "x   "] ∧
    print_table ["é"] [[some "é"]] ≠ specTableAligned ["é"] [[some "é"]] ∧
    print_table ["é"] [[some "é"]] = ["é   ", "----", "é   "] ∧
    specTableAligned ["é"] [[some "é"]] = ["é  ", "---", "é  "] := by
  refine ⟨?_, ?_, ?_, ?_, ?_⟩ <;> decide

/-- Claim C7 (amended): for every ResultSet whose rows each have one
cell per column, table output is the header row, a dashed separator
row, and the data rows; each column's width is the maximum UTF-8 byte
length over its header and all of its rendered cells, and each cell is
left-aligned — padded on the right with spaces, counted in characters,
up to that byte-computed width — followed by two spaces as the column
gap, with Null rendered as the literal text `NULL`; an empty ResultSet
renders exactly one `No results.` line. -/
theorem claim_C7_amended (headers : List String) (rows : List (List (Option String)))
    (h1 : ∀ r ∈ rows, r.length = headers.length) :
    print_table headers rows = specTableByteWidths headers rows := by
  cases rows with
  | nil => rfl
  | cons r rs =>
    unfold print_table specTableByteWidths
    rw [← colWidths_eq_specBytes headers (r :: rs) h1]
    simp only [List.isEmpty_cons, if_neg (by simp : ¬(r :: rs) = [])]
    rw [emitRows]
    simp only [if_pos rfl, emitRows_pos, List.map_map]
    rfl

/-- Claim C7 witness: the amended statement at a concrete two-column
result set containing a Null, and at a multi-byte result set. -/
theorem claim_C7_witness :
    print_table ["name", "age"] [[some "Alice", some "30"], [none, some "2"]] =
      specTableByteWidths ["name", "age"] [[some "Alice", some "30"], [none, some "2"]] ∧
    print_table ["é"] [[some "x"]] = specTableByteWidths ["é"] [[some "x"]] :=
  ⟨claim_C7_amended ["name", "age"] [[some "Alice", some "30"], [none, some "2"]] (by decide),
   claim_C7_amended ["é"] [[some "x"]] (by decide)⟩

end Pirkle
